import Mathlib

/-!
Verification development for the wildboar subsequence-distance engine
(`wildboar/distance/_distance.pyx`).

The Cython module is shallowly embedded as follows.

* Float values are modelled as rationals (`ℚ`).  The libc `sqrt` (and the
  square root inside `np.std`) is kept abstract: definitions that call it
  take a parameter `sqrtQ : ℚ → ℚ` and apply it to the exact argument that
  the code passes to `sqrt`.
* A C float field that can hold `NAN` is modelled as `Option ℚ`, with
  `none` standing for `NAN`; a possibly `NULL` data pointer is modelled
  as `Option (List ℚ)`, with `none` standing for `NULL`.
* `malloc` is modelled by a boolean `allocOk` oracle: `true` means the
  allocation succeeds, `false` means it returns `NULL`.
* Python exceptions are the error type `PyErr`; native calls and the
  explicit `free` calls that the facade performs are recorded in an event
  trace (`List Ev`) so that "before any native computation" and
  "freed exactly once" can be stated.
* The virtual-dispatch surface that the facade uses on a distance measure
  object is the record `Measure`; the concrete methods defined in
  `_distance.pyx` (`DistanceMeasure`, `ScaledDistanceMeasure`,
  `FuncDistanceMeasure`) are embedded one by one below and packaged into
  such records.  `EuclideanDistance` lives in `_euclidean_distance.pyx`,
  which is not among the sources; it is modelled from the spec where a
  working kernel is needed.
-/

namespace Wildboar

/-- Python exceptions that the embedded code can raise.  `valueError`
carries the (abridged) message so that distinct `ValueError` sites can be
told apart. -/
inductive PyErr where
  | valueError (msg : String)
  | typeError
  | overflowError
  | notImplementedError
deriving DecidableEq, Repr

/-- Observable events of a facade call: invocations of the native distance
or match kernels (with the `size_t` sample index they received) and the
`free` calls the facade performs on heap buffers. -/
inductive Ev where
  | subDistance (t_index : Nat)
  | wholeDistance (t_index : Nat)
  | subMatches (t_index : Nat)
  | freePatternData
  | freeMatchBuffer
  | freeDistanceBuffer
deriving DecidableEq, Repr

/-- A numpy array: a shape (one entry per axis) and the row-major flat
data buffer. -/
structure NDArray where
  shape : List Nat
  data : List ℚ
deriving DecidableEq, Repr

/-- The `sample` argument of the facades: either a Python `int` or an
array-like sequence of indices. -/
inductive SampleArg where
  | int (n : Int)
  | seq (xs : List Int)
deriving DecidableEq, Repr

/-- `TSDatabase`: the strided view over a validated 2-d or 3-d array
(struct from `_distance.pxd`, filled in by `ts_database_new`). -/
structure TSDatabase where
  n_samples : Nat
  n_timestep : Nat
  n_dims : Nat
  sample_stride : Nat
  timestep_stride : Nat
  dim_stride : Nat
  data : List ℚ
deriving DecidableEq, Repr

/-- Reading the flat buffer at an element offset.  A C read outside the
buffer is undefined behaviour; the model returns `0` there (no claim
depends on such a value). -/
def TSDatabase.read (t : TSDatabase) (off : Nat) : ℚ :=
  t.data.getD off 0

/-- `TSView` (shapelet info struct): a subsequence referenced in place,
with lazily cached statistics (`NAN` until computed, modelled as
`none`). -/
structure TSView where
  index : Nat
  start : Nat
  length : Nat
  dim : Nat
  mean : Option ℚ
  std : Option ℚ
deriving DecidableEq, Repr

/-- `TSCopy`: an owned extraction of a subsequence.  `data = none` models
a `NULL` pointer (failed `malloc`). -/
structure TSCopy where
  dim : Nat
  length : Nat
  mean : Option ℚ
  std : Option ℚ
  ts_start : Nat := 0
  ts_index : Nat := 0
  data : Option (List ℚ)
deriving DecidableEq, Repr

/-- `__Pyx_PyInt_As_size_t`: converting the Python object passed as a
`size_t` argument.  A negative `int` raises `OverflowError`; a sequence
object raises `TypeError`. -/
def toSizeT : SampleArg → Except PyErr Nat
  | .int n => if n < 0 then .error .overflowError else .ok n.toNat
  | .seq _ => .error .typeError

/-- `_validate_shapelet`: `check_array` keeps a 1-d float array; more than
one axis raises `ValueError`. -/
def _validate_shapelet (s : NDArray) : Except PyErr (List ℚ) :=
  if 1 < s.shape.length then .error (.valueError "only 1d shapelets allowed")
  else .ok s.data

/-- `_validate_data`: a 1-d input is reshaped to `(1, n)`; higher ranks
pass through (contiguity conversion is value-preserving and omitted). -/
def _validate_data (d : NDArray) : NDArray :=
  match d.shape with
  | [n] => { shape := [1, n], data := d.data }
  | _ => d

/-- `ts_database_new`: raises `ValueError` unless the rank is 2 or 3; the
strides are the element strides of the C-contiguous validated array
(byte strides divided by the item size). -/
def ts_database_new (x : NDArray) : Except PyErr TSDatabase :=
  match x.shape with
  | [n, t] =>
      .ok { n_samples := n, n_timestep := t, n_dims := 1,
            sample_stride := t, timestep_stride := 1, dim_stride := 0,
            data := x.data }
  | [n, d, t] =>
      .ok { n_samples := n, n_timestep := t, n_dims := d,
            sample_stride := d * t, timestep_stride := 1, dim_stride := t,
            data := x.data }
  | _ => .error (.valueError "ndim less than 2 or greater than 3")

/-- `ts_copy_free`: frees the data buffer when the struct and its pointer
are non-null.  (Defined in `_distance.pyx`; the facades never call it.) -/
def ts_copy_free (tc : TSCopy) : TSCopy × List Ev :=
  if tc.data.isSome then ({ tc with data := none }, [Ev.freePatternData])
  else (tc, [])

/-- `DistanceMeasure.init_ts_copy_from_ndarray`: sets `dim`, `length`,
`mean = NAN`, `std = NAN`, then `data = malloc(length)`; returns `-1`
when `malloc` yields `NULL`, otherwise fills the buffer from the array
and returns `0`. -/
def DistanceMeasure.init_ts_copy_from_ndarray (allocOk : Bool)
    (arr : List ℚ) (dim : Nat) : Int × TSCopy :=
  if allocOk then
    (0, { dim := dim, length := arr.length, mean := none, std := none,
          data := some arr })
  else
    (-1, { dim := dim, length := arr.length, mean := none, std := none,
           data := none })

/-- `np.mean` of a 1-d array. -/
def np_mean (xs : List ℚ) : ℚ := xs.sum / (xs.length : ℚ)

/-- `np.std` of a 1-d array: the square root of the mean squared deviation
from the mean (population statistics). -/
def np_std (sqrtQ : ℚ → ℚ) (xs : List ℚ) : ℚ :=
  sqrtQ ((xs.map (fun x => (x - np_mean xs) ^ 2)).sum / (xs.length : ℚ))

/-- `ScaledDistanceMeasure.init_ts_copy_from_ndarray`: delegates to the
base initializer, propagates `-1`, otherwise caches `np.mean`/`np.std`
of the copied values and returns `0`. -/
def ScaledDistanceMeasure.init_ts_copy_from_ndarray (sqrtQ : ℚ → ℚ)
    (allocOk : Bool) (arr : List ℚ) (dim : Nat) : Int × TSCopy :=
  let r := DistanceMeasure.init_ts_copy_from_ndarray allocOk arr dim
  if r.1 == -1 then (-1, r.2)
  else (0, { r.2 with mean := some (np_mean arr), std := some (np_std sqrtQ arr) })

/-- `DistanceMeasure.init_ts_view`: fills the view fields, sets
`mean = std = NAN`, returns `0` (the documented non-negative success
value). -/
def DistanceMeasure.init_ts_view (_td : TSDatabase)
    (index start length dim : Nat) : TSView × Int :=
  ({ index := index, dim := dim, start := start, length := length,
     mean := none, std := none }, 0)

/-- The value of the local struct `s` at the end of
`_ts_view_update_statistics`: the loop accumulates `ex`/`ex2` over the
referenced slice and the assignments `s.mean = ex / s.length`,
`s.std = sqrt(ex2 / s.length - s.mean * s.mean)` store the statistics in
this local copy. -/
def _ts_view_update_statistics_local (sqrtQ : ℚ → ℚ) (s : TSView)
    (t : TSDatabase) : TSView :=
  let shapelet_offset :=
    s.index * t.sample_stride + s.dim * t.dim_stride + s.start * t.timestep_stride
  let vals := (List.range s.length).map
    (fun i => t.read (shapelet_offset + i * t.timestep_stride))
  let ex := vals.sum
  let ex2 := (vals.map (fun v => v ^ 2)).sum
  let mean := ex / (s.length : ℚ)
  let std := sqrtQ (ex2 / (s.length : ℚ) - mean * mean)
  { s with mean := some mean, std := some std }

/-- `_ts_view_update_statistics`: `cdef TSView s = s_ptr[0]` copies the
struct by value, so the computed statistics land in the local copy only
and are never written back through `s_ptr`; the caller-visible view is
returned unchanged together with the return value `0`. -/
def _ts_view_update_statistics (sqrtQ : ℚ → ℚ) (s_ptr : TSView)
    (t : TSDatabase) : TSView × Int :=
  let _s := _ts_view_update_statistics_local sqrtQ s_ptr t
  (s_ptr, 0)

/-- `ScaledDistanceMeasure.init_ts_view`: runs the base initializer, then
`_ts_view_update_statistics`, and returns `-1`. -/
def ScaledDistanceMeasure.init_ts_view (sqrtQ : ℚ → ℚ) (td : TSDatabase)
    (index start length dim : Nat) : TSView × Int :=
  let r := DistanceMeasure.init_ts_view td index start length dim
  let r2 := _ts_view_update_statistics sqrtQ r.1 td
  (r2.1, -1)

/-- `DistanceMeasure.support_unaligned`: the base class returns `0`. -/
def DistanceMeasure.support_unaligned : Bool := false

/-- `FuncDistanceMeasure.support_unaligned`: returns `False`. -/
def FuncDistanceMeasure.support_unaligned : Bool := false

/-- `FuncDistanceMeasure.ts_copy_sub_distance`: copies the pattern into
`x_buffer[:s.length]` (only positions below `n_timestep` are written; the
rest keeps the uninitialized `np.empty` contents, modelled as `0`), fills
`y_buffer` with the target sample, and applies the user callable. -/
def FuncDistanceMeasure.ts_copy_sub_distance (f : List ℚ → List ℚ → ℚ)
    (s : TSCopy) (td : TSDatabase) (t_index : Nat) : ℚ :=
  let sample_offset := t_index * td.sample_stride + s.dim * td.dim_stride
  let x := (List.range s.length).map
    (fun i => if i < td.n_timestep then (s.data.getD []).getD i 0 else 0)
  let y := (List.range td.n_timestep).map
    (fun i => td.read (sample_offset + td.timestep_stride * i))
  f x y

/-- The virtual-dispatch surface that the facades use on a distance
measure object.  The kernels return `Except` because the base-class
methods raise `NotImplementedError`.  `ts_copy_sub_distance` additionally
reports the best-match index it wrote through the out-parameter (`none`
models an implementation that never writes it, leaving the caller local
uninitialized). -/
structure Measure where
  supportUnaligned : Bool
  init_ts_copy_from_ndarray : List ℚ → Nat → Int × TSCopy
  ts_copy_sub_distance : TSCopy → TSDatabase → Nat → Except PyErr (ℚ × Option Nat)
  ts_copy_distance : TSCopy → TSDatabase → Nat → Except PyErr ℚ
  ts_copy_sub_matches : TSCopy → TSDatabase → Nat → ℚ → Except PyErr (List (Nat × ℚ))

/-- The `FuncDistanceMeasure` object resulting from
`new_distance_measure` applied to a user callable `f`: inherits the base
copy initializer, overrides the sub-distance and whole-distance kernels
(the whole-distance override also delegates to the sub-distance, and the
out-parameter `return_index` is never written), and inherits the
base-class `ts_copy_sub_matches`, which raises `NotImplementedError`. -/
def FuncDistanceMeasure.measure (allocOk : Bool)
    (f : List ℚ → List ℚ → ℚ) : Measure where
  supportUnaligned := FuncDistanceMeasure.support_unaligned
  init_ts_copy_from_ndarray := DistanceMeasure.init_ts_copy_from_ndarray allocOk
  ts_copy_sub_distance := fun s td i =>
    .ok (FuncDistanceMeasure.ts_copy_sub_distance f s td i, none)
  ts_copy_distance := fun s td i =>
    .ok (FuncDistanceMeasure.ts_copy_sub_distance f s td i)
  ts_copy_sub_matches := fun _ _ _ _ => .error .notImplementedError

/-- Modelled from the spec: `EuclideanDistance` is defined in
`_euclidean_distance.pyx`, which is not among the sources.  Per the spec,
the window distance is the raw L2 distance between the pattern and the
window of the same length starting at offset `o` of the target sample. -/
def EuclideanDistance.window_distance (sqrtQ : ℚ → ℚ) (s : TSCopy)
    (td : TSDatabase) (t_index o : Nat) : ℚ :=
  let sample_offset := t_index * td.sample_stride + s.dim * td.dim_stride
  let xs := s.data.getD []
  sqrtQ (((List.range s.length).map (fun i =>
    (xs.getD i 0 - td.read (sample_offset + (o + i) * td.timestep_stride)) ^ 2)).sum)

/-- Modelled from the spec: the best-window search scans all valid offsets
`0 .. T - L` and returns the minimum distance together with the offset
achieving it; the first (lowest-offset) minimum wins. -/
def EuclideanDistance.ts_copy_sub_distance (sqrtQ : ℚ → ℚ) (s : TSCopy)
    (td : TSDatabase) (t_index : Nat) : ℚ × Nat :=
  let ds := (List.range (td.n_timestep - s.length + 1)).map
    (fun o => (EuclideanDistance.window_distance sqrtQ s td t_index o, o))
  match ds with
  | [] => (0, 0)
  | d :: rest => rest.foldl (fun best c => if c.1 < best.1 then c else best) d

/-- Modelled from the spec: threshold matching records `(o, distance)` for
every offset `o` in `0 .. T - L` whose distance is strictly below the
threshold, in ascending offset order. -/
def EuclideanDistance.ts_copy_sub_matches (sqrtQ : ℚ → ℚ) (s : TSCopy)
    (td : TSDatabase) (t_index : Nat) (threshold : ℚ) :
    Except PyErr (List (Nat × ℚ)) :=
  .ok (((List.range (td.n_timestep - s.length + 1)).map
    (fun o => (o, EuclideanDistance.window_distance sqrtQ s td t_index o))).filter
      (fun p => p.2 < threshold))

/-- Modelled from the spec (kernels) plus the in-source base class: the
`EuclideanDistance` measure object.  `supportUnaligned` and the copy
initializer are the inherited base-class versions; the base
`ts_copy_distance` delegates to `ts_copy_sub_distance`. -/
def EuclideanDistance.measure (sqrtQ : ℚ → ℚ) (allocOk : Bool) : Measure where
  supportUnaligned := DistanceMeasure.support_unaligned
  init_ts_copy_from_ndarray := DistanceMeasure.init_ts_copy_from_ndarray allocOk
  ts_copy_sub_distance := fun s td i =>
    .ok ((EuclideanDistance.ts_copy_sub_distance sqrtQ s td i).1,
         some (EuclideanDistance.ts_copy_sub_distance sqrtQ s td i).2)
  ts_copy_distance := fun s td i =>
    .ok (EuclideanDistance.ts_copy_sub_distance sqrtQ s td i).1
  ts_copy_sub_matches := EuclideanDistance.ts_copy_sub_matches sqrtQ

/-- `_new_match_array`: a positive number of matches yields an array with
exactly those entries; zero matches yields `None`. -/
def _new_match_array (ms : List Nat) : Option (List Nat) :=
  if 0 < ms.length then some ms else none

/-- `_new_distance_array`: a positive number of matches yields an array
with exactly those entries; zero matches yields `None`. -/
def _new_distance_array (ds : List ℚ) : Option (List ℚ) :=
  if 0 < ds.length then some ds else none

/-- Return value of the `distance` facade. -/
inductive DistResult where
  | scalar (d : ℚ)
  | scalarIndexed (d : ℚ) (i : Nat)
  | batch (ds : List ℚ)
  | batchIndexed (ds : List ℚ) (is : List Nat)
deriving DecidableEq, Repr

/-- Return value of the `matches` facade. -/
inductive MatchResult where
  | single (offsets : Option (List Nat))
  | singleD (dists : Option (List ℚ)) (offsets : Option (List Nat))
  | batch (offsets : List (Option (List Nat)))
  | batchD (dists : List (Option (List ℚ))) (offsets : List (Option (List Nat)))
deriving DecidableEq, Repr

/-- The batch loop of the `distance` facade (lines 480-492).  In the
subsequence branch the native call receives the loop variable `i`; in the
non-subsequence branch the code passes `sample` — the original argument
object — instead of `i`, which is modelled faithfully here.
`min_index` is the persistent C local (uninitialized at first, modelled
as the value passed in); a kernel that does not write the out-parameter
leaves it unchanged. -/
def distance_batch_loop (m : Measure) (shape : TSCopy) (sd : TSDatabase)
    (sample : SampleArg) (subsequence_distance : Bool) :
    List Int → List ℚ → List Nat → Nat → List Ev →
    Except PyErr (List ℚ × List Nat) × List Ev
  | [], dist, ind, _, tr => (.ok (dist, ind), tr)
  | i :: rest, dist, ind, min_index, tr =>
    if subsequence_distance then
      match toSizeT (.int i) with
      | .error e => (.error e, tr)
      | .ok ti =>
        match m.ts_copy_sub_distance shape sd ti with
        | .error e => (.error e, tr ++ [.subDistance ti])
        | .ok (d, mi) =>
          distance_batch_loop m shape sd sample subsequence_distance rest
            (dist ++ [d]) (ind ++ [mi.getD min_index]) (mi.getD min_index)
            (tr ++ [.subDistance ti])
    else
      match toSizeT sample with
      | .error e => (.error e, tr)
      | .ok ti =>
        match m.ts_copy_distance shape sd ti with
        | .error e => (.error e, tr ++ [.wholeDistance ti])
        | .ok d =>
          distance_batch_loop m shape sd sample subsequence_distance rest
            (dist ++ [d]) (ind ++ [0]) 0 (tr ++ [.wholeDistance ti])

/-- The `distance` facade (lines 424-497), with the measure already
resolved by `new_distance_measure`.  Order of effects follows the source:
validate the shapelet and the data, default the sample argument, build
the `TSDatabase`, `_check_dim` against `sd.n_dims`, the two alignment
checks, `init_ts_copy_from_ndarray` (whose return code is ignored, line
461), then single-sample or batch dispatch. -/
def distance (m : Measure) (shapelet data : NDArray) (dim : Int)
    (sample : Option SampleArg) (subsequence_distance return_index : Bool) :
    Except PyErr DistResult × List Ev :=
  match _validate_shapelet shapelet with
  | .error e => (.error e, [])
  | .ok s =>
    let x := _validate_data data
    let sample : SampleArg :=
      match sample with
      | none =>
          if x.shape.headD 0 == 1 then .int 0
          else .seq ((List.range (x.shape.headD 0)).map Int.ofNat)
      | some sa => sa
    match ts_database_new x with
    | .error e => (.error e, [])
    | .ok sd =>
      if dim < 0 ∨ (sd.n_dims : Int) ≤ dim then
        (.error (.valueError "illegal dimension"), [])
      else if subsequence_distance = false ∧ m.supportUnaligned = false ∧
          s.length ≠ sd.n_timestep then
        (.error (.valueError "x.shape[0] != y.shape[-1]"), [])
      else if m.supportUnaligned = false ∧ sd.n_timestep < s.length then
        (.error (.valueError "x.shape[0] > y.shape[-1]"), [])
      else
        let shape := (m.init_ts_copy_from_ndarray s dim.toNat).2
        match sample with
        | .int n =>
          if subsequence_distance then
            match toSizeT (.int n) with
            | .error e => (.error e, [])
            | .ok ti =>
              match m.ts_copy_sub_distance shape sd ti with
              | .error e => (.error e, [.subDistance ti])
              | .ok (d, mi) =>
                (.ok (if return_index then .scalarIndexed d (mi.getD 0)
                      else .scalar d), [.subDistance ti])
          else
            match toSizeT (.int n) with
            | .error e => (.error e, [])
            | .ok ti =>
              match m.ts_copy_distance shape sd ti with
              | .error e => (.error e, [.wholeDistance ti])
              | .ok d =>
                (.ok (if return_index then .scalarIndexed d 0
                      else .scalar d), [.wholeDistance ti])
        | .seq xs =>
          match distance_batch_loop m shape sd (.seq xs) subsequence_distance
              xs [] [] 0 [] with
          | (.error e, tr) => (.error e, tr)
          | (.ok (dist, ind), tr) =>
            (.ok (if return_index then .batchIndexed dist ind
                  else .batch dist), tr)

/-- The batch loop of the `matches` facade (lines 539-547).  The loop
variable is declared `cdef size_t i` (line 520), so the loop head
converts each sequence element to `size_t` first — a negative element
raises `OverflowError` there — and `_check_sample` then runs on the
converted, hence non-negative, value immediately before the native
match computation for that sample (only its upper-bound branch is reachable
here); the result buffers are converted with `_new_match_array` /
`_new_distance_array`, appended, and then freed (`free(matches)` before
`free(distances)` in this path). -/
def matches_batch_loop (m : Measure) (shape : TSCopy) (sd : TSDatabase)
    (threshold : ℚ) :
    List Int → List (Option (List Nat)) → List (Option (List ℚ)) → List Ev →
    Except PyErr (List (Option (List Nat)) × List (Option (List ℚ))) × List Ev
  | [], match_list, distance_list, tr => (.ok (match_list, distance_list), tr)
  | i :: rest, match_list, distance_list, tr =>
    match toSizeT (.int i) with
    | .error e => (.error e, tr)
    | .ok ti =>
      if ti < 0 ∨ sd.n_samples ≤ ti then
        (.error (.valueError "illegal sample"), tr)
      else
        match m.ts_copy_sub_matches shape sd ti threshold with
        | .error e => (.error e, tr ++ [.subMatches ti])
        | .ok pairs =>
          matches_batch_loop m shape sd threshold rest
            (match_list ++ [_new_match_array (pairs.map Prod.fst)])
            (distance_list ++ [_new_distance_array (pairs.map Prod.snd)])
            (tr ++ [.subMatches ti, .freeMatchBuffer, .freeDistanceBuffer])

/-- The `matches` facade (lines 499-552), with the measure already
resolved.  Order of effects follows the source: validate the shapelet and
the data, `_check_dim(dim, x.ndim)` — against the array rank, not
`n_dims` —, default the sample argument, build the `TSDatabase`,
`init_ts_copy_from_ndarray` (return code ignored, line 519), then
single-sample dispatch (with `_check_sample`) or the batch loop.  In the
single path the buffers are freed in the order `free(distances)`,
`free(matches)`.  No alignment check is performed. -/
def «matches» (m : Measure) (shapelet data : NDArray) (threshold : ℚ)
    (dim : Int) (sample : Option SampleArg) (return_distance : Bool) :
    Except PyErr MatchResult × List Ev :=
  match _validate_shapelet shapelet with
  | .error e => (.error e, [])
  | .ok s =>
    let x := _validate_data data
    if dim < 0 ∨ (x.shape.length : Int) ≤ dim then
      (.error (.valueError "illegal dimension"), [])
    else
      let sample : SampleArg :=
        match sample with
        | none =>
            if x.shape.headD 0 == 1 then .int 0
            else .seq ((List.range (x.shape.headD 0)).map Int.ofNat)
        | some sa => sa
      match ts_database_new x with
      | .error e => (.error e, [])
      | .ok sd =>
        let shape := (m.init_ts_copy_from_ndarray s dim.toNat).2
        match sample with
        | .int n =>
          if n < 0 ∨ (sd.n_samples : Int) ≤ n then
            (.error (.valueError "illegal sample"), [])
          else
            match toSizeT (.int n) with
            | .error e => (.error e, [])
            | .ok ti =>
              match m.ts_copy_sub_matches shape sd ti threshold with
              | .error e => (.error e, [.subMatches ti])
              | .ok pairs =>
                (.ok (if return_distance then
                        .singleD (_new_distance_array (pairs.map Prod.snd))
                          (_new_match_array (pairs.map Prod.fst))
                      else .single (_new_match_array (pairs.map Prod.fst))),
                 [.subMatches ti, .freeDistanceBuffer, .freeMatchBuffer])
        | .seq xs =>
          match matches_batch_loop m shape sd threshold xs [] [] [] with
          | (.error e, tr) => (.error e, tr)
          | (.ok (ms, ds), tr) =>
            (.ok (if return_distance then .batchD ds ms else .batch ms), tr)

/-! ### Concrete fixtures used by the closed theorems and witnesses -/

/-- A 1-d shapelet `[1, 2]`. -/
def shEx : NDArray := { shape := [2], data := [1, 2] }

/-- A 1-d shapelet `[1, 2, 3]` (longer than the series below). -/
def shLong : NDArray := { shape := [3], data := [1, 2, 3] }

/-- A 2-sample, 2-timestep database `[[1, 2], [3, 4]]`. -/
def xEx : NDArray := { shape := [2, 2], data := [1, 2, 3, 4] }

/-- A constant user callable. -/
def fEx : List ℚ → List ℚ → ℚ := fun _ _ => 7

/-- The `FuncDistanceMeasure` built from `fEx`, allocation succeeding. -/
def mEx : Measure := FuncDistanceMeasure.measure true fEx

/-- The `FuncDistanceMeasure` built from `fEx`, allocation failing. -/
def mExFail : Measure := FuncDistanceMeasure.measure false fEx

/-- The (spec-modelled) Euclidean measure with `sqrtQ := id`. -/
def mEu : Measure := EuclideanDistance.measure id true

/-- The `TSDatabase` produced for the single series `[[1, 2, 3]]`. -/
def tdEx : TSDatabase :=
  { n_samples := 1, n_timestep := 3, n_dims := 1,
    sample_stride := 3, timestep_stride := 1, dim_stride := 0,
    data := [1, 2, 3] }

/-- A rank-2 array with `ns` samples of `t` timesteps over the flat
buffer `xd`; used by the general facade theorems. -/
def nd2 (ns t : Nat) (xd : List ℚ) : NDArray := { shape := [ns, t], data := xd }

/-- The database `ts_database_new` builds for `nd2 ns t xd`. -/
def db2 (ns t : Nat) (xd : List ℚ) : TSDatabase :=
  { n_samples := ns, n_timestep := t, n_dims := 1,
    sample_stride := t, timestep_stride := 1, dim_stride := 0, data := xd }

/-! ### Claim theorems -/

/-- C1: the claim states that a `distance` call with a sequence of sample
indices and `subsequence_distance=False` computes the i-th output entry
against the i-th per-iteration sample index.  Evaluating the embedded
code at such a call shows the defect: the non-subsequence batch branch
passes the original `sample` sequence object — not the loop variable `i` —
to the native whole-series distance, so the `size_t` conversion raises
`TypeError` on the first iteration and no native whole-series distance is
ever computed (the trace is empty). -/
theorem c1_batch_whole_series_uses_sample_not_i :
    distance mEx shEx xEx 0 (some (.seq [0, 1])) false false
      = (.error .typeError, []) := by
  simp [distance, mEx, shEx, xEx, fEx, FuncDistanceMeasure.measure,
    FuncDistanceMeasure.support_unaligned, _validate_shapelet, _validate_data,
    ts_database_new, toSizeT, distance_batch_loop,
    DistanceMeasure.init_ts_copy_from_ndarray]

/-- C2 counterexample: a `distance` call with the out-of-range sample
index `5` (the data has 2 samples) does not fail with any error — the
index is passed to the native subsequence-distance computation unchecked
and the call returns a result. -/
theorem c2_distance_accepts_out_of_range_sample :
    distance mEx shEx xEx 0 (some (.int 5)) true false
      = (.ok (.scalar 7), [.subDistance 5]) := by
  simp [distance, mEx, shEx, xEx, fEx, FuncDistanceMeasure.measure,
    FuncDistanceMeasure.support_unaligned, _validate_shapelet, _validate_data,
    ts_database_new, toSizeT, FuncDistanceMeasure.ts_copy_sub_distance,
    DistanceMeasure.init_ts_copy_from_ndarray]

/-- C3: the claim states both facades fail iff `dim < 0` or
`dim ≥ n_dims`.  For the 2-d input `xEx` (`n_dims = 1`, rank 2) and
`dim = 1`, `distance` correctly rejects, but `matches` — which validates
against the array rank `x.ndim` instead of `sd.n_dims` — accepts the
out-of-range dimension and completes successfully. -/
theorem c3_matches_checks_dim_against_rank :
    distance mEu shEx xEx 1 (some (.int 0)) true false
      = (.error (.valueError "illegal dimension"), [])
    ∧ «matches» mEu shEx xEx 0 1 (some (.int 0)) false
      = (.ok (.single none),
         [.subMatches 0, .freeDistanceBuffer, .freeMatchBuffer]) := by
  constructor
  · simp [distance, mEu, shEx, xEx, EuclideanDistance.measure,
      _validate_shapelet, _validate_data, ts_database_new]
  · simp [«matches», mEu, shEx, xEx, EuclideanDistance.measure,
      DistanceMeasure.support_unaligned, _validate_shapelet, _validate_data,
      ts_database_new, toSizeT, DistanceMeasure.init_ts_copy_from_ndarray,
      EuclideanDistance.ts_copy_sub_matches, EuclideanDistance.window_distance,
      TSDatabase.read, _new_match_array, List.range_succ]

/-- C4: the claim states `init_ts_view` returns a non-negative success
value for every measure.  The base class does return `0`, but
`ScaledDistanceMeasure.init_ts_view` unconditionally returns `-1`, and
(because `_ts_view_update_statistics` updates only a by-value local copy
of the struct) the view it produces still has `mean = std = NAN`. -/
theorem c4_scaled_init_ts_view_returns_negative :
    (DistanceMeasure.init_ts_view tdEx 0 0 3 0).2 = 0
    ∧ (ScaledDistanceMeasure.init_ts_view id tdEx 0 0 3 0).2 = -1
    ∧ (ScaledDistanceMeasure.init_ts_view id tdEx 0 0 3 0).1.mean = none := by
  exact ⟨rfl, rfl, rfl⟩

/-- C5: the claim states an allocation failure fails the whole call with
an `AllocationError`-class error.  The callee does report the failure
(`init_ts_copy_from_ndarray` returns `-1` and leaves the data pointer
`NULL`), but `distance` ignores the return code (line 461) and the call
proceeds into the native computation with the `NULL` pattern buffer and
returns an ordinary result instead of failing. -/
theorem c5_allocation_failure_is_ignored :
    (DistanceMeasure.init_ts_copy_from_ndarray false [1, 2] 0).1 = -1
    ∧ (DistanceMeasure.init_ts_copy_from_ndarray false [1, 2] 0).2.data = none
    ∧ distance mExFail shEx xEx 0 (some (.int 0)) true false
        = (.ok (.scalar 7), [.subDistance 0]) := by
  refine ⟨rfl, rfl, ?_⟩
  simp [distance, mExFail, shEx, xEx, fEx, FuncDistanceMeasure.measure,
    FuncDistanceMeasure.support_unaligned, _validate_shapelet, _validate_data,
    ts_database_new, toSizeT, FuncDistanceMeasure.ts_copy_sub_distance,
    DistanceMeasure.init_ts_copy_from_ndarray]

/-- C6: the claim states the PatternCopy data buffer is freed exactly
once before the call returns.  The buffer is allocated (non-`NULL`), yet
neither a successful `distance` call nor a successful batch `matches`
call ever emits a free of the pattern buffer (`ts_copy_free` is never
invoked): the trace contains zero `freePatternData` events, not one. -/
theorem c6_pattern_copy_buffer_never_freed :
    (DistanceMeasure.init_ts_copy_from_ndarray true [1, 2] 0).2.data = some [1, 2]
    ∧ (distance mEx shEx xEx 0 (some (.int 0)) true false).2.count .freePatternData = 0
    ∧ («matches» mEu shEx xEx 10 0 (some (.seq [0, 1])) true).2.count .freePatternData = 0 := by
  refine ⟨rfl, ?_, ?_⟩
  · simp [distance, mEx, shEx, xEx, fEx, FuncDistanceMeasure.measure,
      FuncDistanceMeasure.support_unaligned, _validate_shapelet, _validate_data,
      ts_database_new, toSizeT, FuncDistanceMeasure.ts_copy_sub_distance,
      DistanceMeasure.init_ts_copy_from_ndarray, List.count_cons]
  · simp [«matches», mEu, shEx, xEx, EuclideanDistance.measure,
      DistanceMeasure.support_unaligned, _validate_shapelet, _validate_data,
      ts_database_new, toSizeT, DistanceMeasure.init_ts_copy_from_ndarray,
      EuclideanDistance.ts_copy_sub_matches, EuclideanDistance.window_distance,
      TSDatabase.read, _new_match_array, _new_distance_array, matches_batch_loop,
      List.range_succ, List.count_cons]

/-- C7 counterexample: the claim states `support_unaligned` returns true
for the user-supplied-callable measure; in the code
`FuncDistanceMeasure.support_unaligned` returns `False`. -/
theorem c7_func_measure_not_unaligned :
    ¬ (FuncDistanceMeasure.support_unaligned = true) := by decide

/-- C7 amended: `support_unaligned` returns false for the base distance
measure and also false for the user-supplied-callable measure
(`FuncDistanceMeasure`). -/
theorem c7_support_unaligned_values :
    DistanceMeasure.support_unaligned = false
    ∧ FuncDistanceMeasure.support_unaligned = false := ⟨rfl, rfl⟩

/-- C8 counterexample: the claim states that for every measure lacking
unaligned support, a call with pattern length `L` greater than target
length `T` fails with a ShapeError-class error before any computation in
both facades.  `matches` performs no alignment check at all: with
`L = 3 > T = 2` and the (non-unaligned) callable measure, the call
reaches the native match dispatch (the `subMatches` event is emitted) and
fails only with the base-class `NotImplementedError`. -/
theorem c8_matches_skips_alignment_check :
    «matches» mEx shLong xEx 10 0 (some (.int 0)) false
      = (.error .notImplementedError, [.subMatches 0]) := by
  simp [«matches», mEx, shLong, xEx, fEx, FuncDistanceMeasure.measure,
    _validate_shapelet, _validate_data, ts_database_new, toSizeT,
    DistanceMeasure.init_ts_copy_from_ndarray]

/-- C9: the claim states that for scaled measures the statistics cached
for a PatternView equal the arithmetic mean and the population standard
deviation of the referenced slice.  For the slice `[1, 2, 3]` the local
computation inside `_ts_view_update_statistics` does produce
`mean = 2` and `std = sqrt(14/3 - 4) = sqrt(2/3)`, but the struct update
is lost (the function writes a by-value local copy), so the view coming
out of `ScaledDistanceMeasure.init_ts_view` still carries
`mean = std = NAN`.  The PatternCopy path, by contrast, does cache the
mean. -/
theorem c9_view_statistics_never_cached :
    (ScaledDistanceMeasure.init_ts_view id tdEx 0 0 3 0).1.mean = none
    ∧ (ScaledDistanceMeasure.init_ts_view id tdEx 0 0 3 0).1.std = none
    ∧ (_ts_view_update_statistics_local id
        { index := 0, start := 0, length := 3, dim := 0,
          mean := none, std := none } tdEx).mean = some 2
    ∧ (_ts_view_update_statistics_local id
        { index := 0, start := 0, length := 3, dim := 0,
          mean := none, std := none } tdEx).std = some (2 / 3)
    ∧ (ScaledDistanceMeasure.init_ts_copy_from_ndarray id true [1, 2, 3] 0).2.mean
        = some 2 := by
  refine ⟨rfl, rfl, ?_, ?_, ?_⟩
  · simp [_ts_view_update_statistics_local, tdEx, TSDatabase.read, List.range_succ]
    norm_num
  · simp [_ts_view_update_statistics_local, tdEx, TSDatabase.read, List.range_succ]
    norm_num
  · simp [ScaledDistanceMeasure.init_ts_copy_from_ndarray,
      DistanceMeasure.init_ts_copy_from_ndarray, np_mean]
    norm_num

/-! ### Supporting lemmas -/

theorem validate_shapelet_ok (sh : NDArray) (h : sh.shape.length ≤ 1) :
    _validate_shapelet sh = .ok sh.data := by
  unfold _validate_shapelet
  rw [if_neg]
  omega

theorem validate_data_nd2 (ns t : Nat) (xd : List ℚ) :
    _validate_data (nd2 ns t xd) = nd2 ns t xd := rfl

theorem ts_database_new_nd2 (ns t : Nat) (xd : List ℚ) :
    ts_database_new (nd2 ns t xd) = .ok (db2 ns t xd) := rfl

theorem toSizeT_error (a : SampleArg) (e : PyErr) (h : toSizeT a = .error e) :
    e = .overflowError ∨ e = .typeError := by
  cases a with
  | int n =>
    simp only [toSizeT] at h
    split at h
    · injection h with h2
      exact Or.inl h2.symm
    · exact Except.noConfusion h
  | seq xs =>
    simp only [toSizeT] at h
    injection h with h2
    exact Or.inr h2.symm

theorem nd2_shape (ns t : Nat) (xd : List ℚ) : (nd2 ns t xd).shape = [ns, t] := rfl

theorem db2_n_samples (ns t : Nat) (xd : List ℚ) : (db2 ns t xd).n_samples = ns := rfl

theorem db2_n_timestep (ns t : Nat) (xd : List ℚ) : (db2 ns t xd).n_timestep = t := rfl

theorem db2_n_dims (ns t : Nat) (xd : List ℚ) : (db2 ns t xd).n_dims = 1 := rfl

theorem sum_sq_deviation (c : ℚ) (xs : List ℚ) :
    (xs.map (fun x => (x - c) ^ 2)).sum
      = (xs.map (fun x => x ^ 2)).sum - 2 * c * xs.sum + xs.length * c ^ 2 := by
  induction xs with
  | nil => simp
  | cons a l ih =>
    simp only [List.map_cons, List.sum_cons, List.length_cons, ih]
    push_cast
    ring

/-- `np.std` (root of the mean squared deviation) coincides with the
population formula `sqrt(mean(x^2) - mean(x)^2)` that the spec states,
whatever function is taken for the square root. -/
theorem np_std_population_formula (sqrtQ : ℚ → ℚ) (xs : List ℚ) :
    np_std sqrtQ xs
      = sqrtQ ((xs.map (fun x => x ^ 2)).sum / (xs.length : ℚ)
               - np_mean xs * np_mean xs) := by
  unfold np_std np_mean
  rcases eq_or_ne ((xs.length : ℚ)) 0 with h | h
  · have hx : xs = [] := List.length_eq_zero.mp (by exact_mod_cast h)
    simp [hx]
  · congr 1
    rw [sum_sq_deviation]
    field_simp
    ring

theorem matches_batch_loop_ok (m : Measure) (shape : TSCopy) (sd : TSDatabase)
    (thr : ℚ) :
    ∀ (rest : List Int) (ml : List (Option (List Nat)))
      (dl : List (Option (List ℚ))) (tr : List Ev)
      (ms : List (Option (List Nat))) (ds : List (Option (List ℚ)))
      (tr2 : List Ev),
      matches_batch_loop m shape sd thr rest ml dl tr = (.ok (ms, ds), tr2) →
      ∃ extM extD, ms = ml ++ extM ∧ ds = dl ++ extD
        ∧ extM.length = extD.length
        ∧ ∀ k, k < extM.length → ∃ pairs : List (Nat × ℚ),
            extM.getD k none = _new_match_array (pairs.map Prod.fst)
            ∧ extD.getD k none = _new_distance_array (pairs.map Prod.snd) := by
  intro rest
  induction rest with
  | nil =>
    intro ml dl tr ms ds tr2 h
    rw [matches_batch_loop] at h
    simp only [Prod.mk.injEq, Except.ok.injEq] at h
    obtain ⟨⟨hm, hd⟩, _⟩ := h
    refine ⟨[], [], by simp [hm], by simp [hd], rfl, ?_⟩
    intro k hk
    simp at hk
  | cons i rest ih =>
    intro ml dl tr ms ds tr2 h
    rw [matches_batch_loop] at h
    split at h
    · simp at h
    · split at h
      · simp at h
      · split at h
        · simp at h
        · rename_i pairs hpairs
          obtain ⟨extM, extD, hm, hd, hlen, hk⟩ := ih _ _ _ _ _ _ h
          refine ⟨_new_match_array (pairs.map Prod.fst) :: extM,
                  _new_distance_array (pairs.map Prod.snd) :: extD,
                  by simp [hm], by simp [hd], by simp [hlen], ?_⟩
          intro k hklt
          cases k with
          | zero => exact ⟨pairs, rfl, rfl⟩
          | succ k =>
            simp only [List.getD_cons_succ]
            exact hk k (by simpa using hklt)

theorem distance_batch_loop_trace_prefix (m : Measure) (shape : TSCopy)
    (sd : TSDatabase) (sa : SampleArg) (subseq : Bool) :
    ∀ (rest : List Int) (dist : List ℚ) (ind : List Nat) (mi : Nat)
      (tr : List Ev),
      tr.length ≤
        (distance_batch_loop m shape sd sa subseq rest dist ind mi tr).2.length := by
  intro rest
  induction rest with
  | nil =>
    intro dist ind mi tr
    rw [distance_batch_loop]
  | cons i rest ih =>
    intro dist ind mi tr
    rw [distance_batch_loop]
    split
    · split
      · exact le_rfl
      · split
        · simp
        · exact le_trans (by simp) (ih _ _ _ _)
    · split
      · exact le_rfl
      · split
        · simp
        · exact le_trans (by simp) (ih _ _ _ _)

theorem distance_batch_loop_error_same_trace (m : Measure) (shape : TSCopy)
    (sd : TSDatabase) (sa : SampleArg) (subseq : Bool) :
    ∀ (rest : List Int) (dist : List ℚ) (ind : List Nat) (mi : Nat)
      (tr : List Ev) (e : PyErr),
      distance_batch_loop m shape sd sa subseq rest dist ind mi tr
        = (.error e, tr) →
      e = .overflowError ∨ e = .typeError := by
  intro rest
  induction rest with
  | nil =>
    intro dist ind mi tr e h
    rw [distance_batch_loop] at h
    exact absurd h (by simp)
  | cons i rest ih =>
    intro dist ind mi tr e h
    rw [distance_batch_loop] at h
    split at h
    · split at h
      · rename_i e2 htos
        simp only [Prod.mk.injEq, Except.error.injEq] at h
        obtain ⟨he, -⟩ := h
        subst he
        exact toSizeT_error _ _ htos
      · rename_i ti htos
        split at h
        · simp only [Prod.mk.injEq] at h
          obtain ⟨-, htr⟩ := h
          exact absurd htr (by simp)
        · rename_i d2 mi2 hker
          have hpre := distance_batch_loop_trace_prefix m shape sd sa subseq
            rest (dist ++ [d2]) (ind ++ [mi2.getD mi]) (mi2.getD mi)
            (tr ++ [Ev.subDistance ti])
          rw [h] at hpre
          simp at hpre
    · split at h
      · rename_i e2 htos
        simp only [Prod.mk.injEq, Except.error.injEq] at h
        obtain ⟨he, -⟩ := h
        subst he
        exact toSizeT_error _ _ htos
      · rename_i ti htos
        split at h
        · simp only [Prod.mk.injEq] at h
          obtain ⟨-, htr⟩ := h
          exact absurd htr (by simp)
        · rename_i d2 hker
          have hpre := distance_batch_loop_trace_prefix m shape sd sa subseq
            rest (dist ++ [d2]) (ind ++ [0]) 0
            (tr ++ [Ev.wholeDistance ti])
          rw [h] at hpre
          simp at hpre

/-- C10: for every `matches` call and every target sample, a sample with
zero matching offsets yields `None` for both the offsets and the
distances, and a sample with `n > 0` matches yields offset and distance
arrays of length exactly `n`.  Stated in three parts: the single-sample
path assembles its result through `_new_match_array` /
`_new_distance_array` applied to the native result; those converters
return `None` exactly when there are zero matches and otherwise arrays of
length `n`; and every per-sample entry of a successful batch call is such
a converted pair. -/
theorem c10_zero_matches_yield_none (m : Measure) (sh : NDArray)
    (ns t : Nat) (xd : List ℚ) (thr : ℚ)
    (hsh : sh.shape.length ≤ 1) :
    (∀ (n : Int) (pairs : List (Nat × ℚ)), 0 ≤ n → n < (ns : Int) →
       m.ts_copy_sub_matches ((m.init_ts_copy_from_ndarray sh.data 0).2)
           (db2 ns t xd) n.toNat thr = .ok pairs →
       «matches» m sh (nd2 ns t xd) thr 0 (some (.int n)) true
         = (.ok (.singleD (_new_distance_array (pairs.map Prod.snd))
                          (_new_match_array (pairs.map Prod.fst))),
            [.subMatches n.toNat, .freeDistanceBuffer, .freeMatchBuffer]))
    ∧ (∀ pairs : List (Nat × ℚ),
        (_new_match_array (pairs.map Prod.fst) = none ↔ pairs.length = 0)
        ∧ (_new_distance_array (pairs.map Prod.snd) = none ↔ pairs.length = 0)
        ∧ (0 < pairs.length →
            _new_match_array (pairs.map Prod.fst) = some (pairs.map Prod.fst)
            ∧ (pairs.map Prod.fst).length = pairs.length
            ∧ _new_distance_array (pairs.map Prod.snd) = some (pairs.map Prod.snd)
            ∧ (pairs.map Prod.snd).length = pairs.length))
    ∧ (∀ (xs : List Int) (ms : List (Option (List Nat)))
         (ds : List (Option (List ℚ))) (tr : List Ev),
        «matches» m sh (nd2 ns t xd) thr 0 (some (.seq xs)) true
          = (.ok (.batchD ds ms), tr) →
        ms.length = ds.length
        ∧ ∀ k, k < ms.length → ∃ pairs : List (Nat × ℚ),
            ms.getD k none = _new_match_array (pairs.map Prod.fst)
            ∧ ds.getD k none = _new_distance_array (pairs.map Prod.snd)) := by
  have hval := validate_shapelet_ok sh hsh
  refine ⟨?_, ?_, ?_⟩
  · intro n pairs hn0 hns hkernel
    simp only [«matches», hval, validate_data_nd2]
    rw [if_neg (by simp [nd2])]
    simp only [ts_database_new_nd2, Int.toNat_zero]
    rw [if_neg (by simp [db2]; omega)]
    rw [show toSizeT (.int n) = .ok n.toNat by
      simp only [toSizeT]; rw [if_neg (by omega)]]
    simp only [hkernel]
    simp
  · intro pairs
    refine ⟨?_, ?_, ?_⟩
    · unfold _new_match_array
      constructor
      · intro h
        by_contra hne
        rw [if_pos (by simpa using Nat.pos_of_ne_zero hne)] at h
        cases h
      · intro h
        rw [if_neg (by simpa using h)]
    · unfold _new_distance_array
      constructor
      · intro h
        by_contra hne
        rw [if_pos (by simpa using Nat.pos_of_ne_zero hne)] at h
        cases h
      · intro h
        rw [if_neg (by simpa using h)]
    · intro hpos
      unfold _new_match_array _new_distance_array
      rw [if_pos (by simpa using hpos), if_pos (by simpa using hpos)]
      simp
  · intro xs ms ds tr h
    simp only [«matches», hval, validate_data_nd2] at h
    rw [if_neg (by simp [nd2])] at h
    simp only [ts_database_new_nd2, Int.toNat_zero] at h
    rcases hloop : matches_batch_loop m
        ((m.init_ts_copy_from_ndarray sh.data 0).2) (db2 ns t xd)
        thr xs [] [] [] with ⟨res, tr3⟩
    rw [hloop] at h
    cases res with
    | error e => simp at h
    | ok p =>
      obtain ⟨ms2, ds2⟩ := p
      simp only [Prod.mk.injEq, Except.ok.injEq, if_true] at h
      obtain ⟨hmr, htr⟩ := h
      have hds : ds2 = ds := by
        cases hmr; rfl
      have hms : ms2 = ms := by
        cases hmr; rfl
      obtain ⟨extM, extD, hm2, hd2, hlen, hk⟩ :=
        matches_batch_loop_ok m _ _ thr xs [] [] [] ms2 ds2 tr3 hloop
      subst hms hds
      simp only [List.nil_append] at hm2 hd2
      subst hm2 hd2
      exact ⟨hlen, hk⟩

/-- Witness for C10: a concrete successful single-sample call with the
(spec-modelled) Euclidean measure, one match at offset 0 with distance 0,
derived by applying the theorem. -/
theorem c10_zero_matches_yield_none_witness :
    «matches» mEu shEx (nd2 1 2 [1, 2]) 10 0 (some (.int 0)) true
      = (.ok (.singleD (some [0]) (some [0])),
         [.subMatches 0, .freeDistanceBuffer, .freeMatchBuffer]) := by
  have h := (c10_zero_matches_yield_none mEu shEx 1 2 [1, 2] 10 (by decide)).1
  have hk : mEu.ts_copy_sub_matches
      ((mEu.init_ts_copy_from_ndarray shEx.data 0).2) (db2 1 2 [1, 2]) 0 10
        = .ok [(0, 0)] := by
    simp [mEu, shEx, db2, EuclideanDistance.measure,
      DistanceMeasure.init_ts_copy_from_ndarray,
      EuclideanDistance.ts_copy_sub_matches, EuclideanDistance.window_distance,
      TSDatabase.read, List.range_succ]
  have h2 := h 0 [(0, 0)] (by omega) (by omega) hk
  simpa [_new_match_array, _new_distance_array] using h2

/-- C2 amended: `matches` rejects an out-of-range single sample index
with a `ValueError` from `_check_sample` before any native match
computation.  In batch mode the loop variable is a `size_t`, so each
sequence element is converted at the loop head, before `_check_sample`
runs on the converted value: a negative element fails with the
`OverflowError` of that conversion and a too-large element with the
`_check_sample` `ValueError`, in both cases before the native match
computation for that sample (shown here for the first element).
`distance` performs no sample-index validation at all: a non-negative
out-of-range index is handed to the native subsequence computation
unchecked (the native event carries it), and a negative index fails only
with the `OverflowError` of the `size_t` conversion. -/
theorem c2_amended_sample_validation (m : Measure) (sh : NDArray)
    (ns t : Nat) (xd : List ℚ) (thr : ℚ) (n : Int) (rd ri : Bool)
    (xs : List Int)
    (hsh : sh.shape.length ≤ 1)
    (hn : n < 0 ∨ (ns : Int) ≤ n) :
    («matches» m sh (nd2 ns t xd) thr 0 (some (.int n)) rd
        = (.error (.valueError "illegal sample"), []))
    ∧ (0 ≤ n → «matches» m sh (nd2 ns t xd) thr 0 (some (.seq (n :: xs))) rd
        = (.error (.valueError "illegal sample"), []))
    ∧ (n < 0 → «matches» m sh (nd2 ns t xd) thr 0 (some (.seq (n :: xs))) rd
        = (.error .overflowError, []))
    ∧ (0 ≤ n → (m.supportUnaligned = true ∨ sh.data.length ≤ t) →
        (distance m sh (nd2 ns t xd) 0 (some (.int n)) true ri).2
          = [.subDistance n.toNat])
    ∧ (n < 0 → (m.supportUnaligned = true ∨ sh.data.length ≤ t) →
        distance m sh (nd2 ns t xd) 0 (some (.int n)) true ri
          = (.error .overflowError, [])) := by
  have hval := validate_shapelet_ok sh hsh
  refine ⟨?_, ?_, ?_, ?_, ?_⟩
  · simp only [«matches», hval, validate_data_nd2]
    rw [if_neg (by simp [nd2])]
    simp only [ts_database_new_nd2, Int.toNat_zero]
    rw [if_pos (by simpa [db2] using hn)]
  · intro hn0
    have htos : toSizeT (.int n) = .ok n.toNat := by
      simp only [toSizeT]; rw [if_neg (by omega)]
    simp only [«matches», hval, validate_data_nd2]
    rw [if_neg (by simp [nd2])]
    simp only [ts_database_new_nd2, Int.toNat_zero, matches_batch_loop, htos]
    rw [if_pos (Or.inr (by simp only [db2_n_samples]; omega))]
  · intro hneg
    have htos : toSizeT (.int n) = .error .overflowError := by
      simp only [toSizeT]; rw [if_pos hneg]
    simp only [«matches», hval, validate_data_nd2]
    rw [if_neg (by simp [nd2])]
    simp only [ts_database_new_nd2, Int.toNat_zero, matches_batch_loop, htos]
  · intro hn0 halign
    simp only [distance, hval, validate_data_nd2, ts_database_new_nd2]
    rw [if_neg (by simp [db2])]
    rw [if_neg (by simp)]
    rw [if_neg ?halign]
    case halign =>
      rintro ⟨hu, hlt⟩
      rcases halign with h | h
      · exact absurd hu (by simp [h])
      · simp only [db2] at hlt
        omega
    rw [show toSizeT (.int n) = .ok n.toNat by
      simp only [toSizeT]; rw [if_neg (by omega)]]
    simp only [Int.toNat_zero]
    cases hker : m.ts_copy_sub_distance
        ((m.init_ts_copy_from_ndarray sh.data 0).2)
        (db2 ns t xd) n.toNat with
    | error e => simp [hker]
    | ok p =>
      obtain ⟨d, mi⟩ := p
      simp [hker]
  · intro hneg halign
    simp only [distance, hval, validate_data_nd2, ts_database_new_nd2]
    rw [if_neg (by simp [db2])]
    rw [if_neg (by simp)]
    rw [if_neg ?halign2]
    case halign2 =>
      rintro ⟨hu, hlt⟩
      rcases halign with h | h
      · exact absurd hu (by simp [h])
      · simp only [db2] at hlt
        omega
    rw [show toSizeT (.int n) = .error .overflowError by
      simp only [toSizeT]; rw [if_pos hneg]]
    simp

/-- Witness for C2 amended: out-of-range index 5 on two samples is
rejected by `matches` with `ValueError` and an empty trace, by applying
the amended theorem at concrete inputs. -/
theorem c2_amended_sample_validation_witness :
    «matches» mEx shEx (nd2 2 2 [1, 2, 3, 4]) 0 0 (some (.int 5)) false
      = (.error (.valueError "illegal sample"), []) := by
  have h := c2_amended_sample_validation mEx shEx 2 2 [1, 2, 3, 4] 0 5
    false false [] (by decide) (by omega)
  exact h.1

/-- C8 amended: for every measure lacking unaligned support, on rank-2
data with `t` timesteps and a pattern of length `L`: in `distance`,
`L > t` fails with a `ValueError` (one of the two alignment messages)
before any native computation; `L = t` never fails for alignment reasons
(an error with an empty trace — i.e. raised before any native call — is
never one of the alignment errors); a non-subsequence call fails with the
alignment `ValueError` whenever `L ≠ t`.  `matches`, however, performs no
alignment validation: a call with a valid dimension and sample index
always reaches the native match dispatch, whatever `L`. -/
theorem c8_amended_alignment (m : Measure) (sh : NDArray) (ns t : Nat)
    (xd : List ℚ) (thr : ℚ)
    (hm : m.supportUnaligned = false)
    (hsh : sh.shape.length ≤ 1) :
    (t < sh.data.length → ∀ (sa : Option SampleArg) (subseq ri : Bool),
        ∃ msg, distance m sh (nd2 ns t xd) 0 sa subseq ri
            = (.error (.valueError msg), [])
          ∧ (msg = "x.shape[0] != y.shape[-1]"
             ∨ msg = "x.shape[0] > y.shape[-1]"))
    ∧ (sh.data.length = t →
        ∀ (sa : Option SampleArg) (subseq ri : Bool) (e : PyErr),
        distance m sh (nd2 ns t xd) 0 sa subseq ri = (.error e, []) →
        e ≠ .valueError "x.shape[0] != y.shape[-1]"
        ∧ e ≠ .valueError "x.shape[0] > y.shape[-1]")
    ∧ (sh.data.length ≠ t → ∀ (sa : Option SampleArg) (ri : Bool),
        distance m sh (nd2 ns t xd) 0 sa false ri
          = (.error (.valueError "x.shape[0] != y.shape[-1]"), []))
    ∧ (∀ n : Int, 0 ≤ n → n < (ns : Int) → ∀ rd : Bool,
        («matches» m sh (nd2 ns t xd) thr 0 (some (.int n)) rd).2.head?
          = some (.subMatches n.toNat)) := by
  have hval := validate_shapelet_ok sh hsh
  refine ⟨?_, ?_, ?_, ?_⟩
  · intro hLt sa subseq ri
    simp only [distance, hval, validate_data_nd2, ts_database_new_nd2,
      db2_n_dims, db2_n_timestep]
    rw [if_neg (by simp)]
    cases subseq with
    | false =>
      rw [if_pos ⟨rfl, hm, by omega⟩]
      exact ⟨"x.shape[0] != y.shape[-1]", rfl, Or.inl rfl⟩
    | true =>
      rw [if_neg (by rintro ⟨hc, -, -⟩; cases hc)]
      rw [if_pos ⟨hm, hLt⟩]
      exact ⟨"x.shape[0] > y.shape[-1]", rfl, Or.inr rfl⟩
  · intro hL sa subseq ri e h
    simp only [distance, hval, validate_data_nd2, ts_database_new_nd2,
      db2_n_dims, db2_n_timestep, db2_n_samples] at h
    rw [if_neg (by simp)] at h
    rw [if_neg (by rintro ⟨-, -, hne⟩; exact hne hL)] at h
    rw [if_neg (by rintro ⟨-, hlt⟩; omega)] at h
    have hint : ∀ (n : Int) (ev : Nat → Ev)
        (knl : TSCopy → TSDatabase → Nat → Except PyErr (ℚ × Option Nat))
        (wnl : TSCopy → TSDatabase → Nat → Except PyErr ℚ),
        (if subseq = true then
          match toSizeT (.int n) with
          | .error e2 => ((.error e2 : Except PyErr DistResult), ([] : List Ev))
          | .ok ti =>
            match knl ((m.init_ts_copy_from_ndarray sh.data (Int.toNat 0)).2)
                (db2 ns t xd) ti with
            | .error e2 => (.error e2, [ev ti])
            | .ok (d, mi) =>
              (.ok (if ri = true then .scalarIndexed d (mi.getD 0)
                    else .scalar d), [ev ti])
         else
          match toSizeT (.int n) with
          | .error e2 => (.error e2, [])
          | .ok ti =>
            match wnl ((m.init_ts_copy_from_ndarray sh.data (Int.toNat 0)).2)
                (db2 ns t xd) ti with
            | .error e2 => (.error e2, [Ev.wholeDistance ti])
            | .ok d =>
              (.ok (if ri = true then .scalarIndexed d 0 else .scalar d),
               [Ev.wholeDistance ti])) = (.error e, []) →
        e ≠ .valueError "x.shape[0] != y.shape[-1]"
        ∧ e ≠ .valueError "x.shape[0] > y.shape[-1]" := by
      intro n ev knl wnl hh
      split at hh
      · split at hh
        · rename_i e2 htos
          simp only [Prod.mk.injEq, Except.error.injEq] at hh
          obtain ⟨he, -⟩ := hh
          subst he
          rcases toSizeT_error _ _ htos with h2 | h2 <;> subst h2 <;>
            exact ⟨by simp, by simp⟩
        · split at hh
          · simp at hh
          · simp at hh
      · split at hh
        · rename_i e2 htos
          simp only [Prod.mk.injEq, Except.error.injEq] at hh
          obtain ⟨he, -⟩ := hh
          subst he
          rcases toSizeT_error _ _ htos with h2 | h2 <;> subst h2 <;>
            exact ⟨by simp, by simp⟩
        · split at hh
          · simp at hh
          · simp at hh
    have hseq : ∀ xs : List Int,
        (match distance_batch_loop m
            ((m.init_ts_copy_from_ndarray sh.data (Int.toNat 0)).2)
            (db2 ns t xd) (.seq xs) subseq xs [] [] 0 [] with
         | (.error e2, tr) => ((.error e2 : Except PyErr DistResult), tr)
         | (.ok (dist, ind), tr) =>
           (.ok (if ri = true then .batchIndexed dist ind else .batch dist),
            tr)) = (.error e, []) →
        e ≠ .valueError "x.shape[0] != y.shape[-1]"
        ∧ e ≠ .valueError "x.shape[0] > y.shape[-1]" := by
      intro xs hh
      rcases hloop : distance_batch_loop m
          ((m.init_ts_copy_from_ndarray sh.data (Int.toNat 0)).2)
          (db2 ns t xd) (.seq xs) subseq xs [] [] 0 [] with ⟨res, tr3⟩
      rw [hloop] at hh
      cases res with
      | ok p =>
        obtain ⟨dist, ind⟩ := p
        simp at hh
      | error e2 =>
        simp only [Prod.mk.injEq, Except.error.injEq] at hh
        obtain ⟨he, htr⟩ := hh
        subst he htr
        rcases distance_batch_loop_error_same_trace m _ _ _ _ xs
            [] [] 0 [] _ hloop with h2 | h2 <;> subst h2 <;>
          exact ⟨by simp, by simp⟩
    cases sa with
    | none =>
      by_cases hns1 : ((nd2 ns t xd).shape.headD 0 == 1) = true
      · rw [if_pos hns1] at h
        exact hint 0 Ev.subDistance m.ts_copy_sub_distance m.ts_copy_distance h
      · rw [if_neg hns1] at h
        exact hseq _ h
    | some a =>
      cases a with
      | int n =>
        exact hint n Ev.subDistance m.ts_copy_sub_distance m.ts_copy_distance h
      | seq xs =>
        exact hseq xs h
  · intro hne sa ri
    simp only [distance, hval, validate_data_nd2, ts_database_new_nd2,
      db2_n_dims, db2_n_timestep]
    rw [if_neg (by simp)]
    rw [if_pos ⟨trivial, hm, hne⟩]
  · intro n hn0 hns rd
    simp only [«matches», hval, validate_data_nd2, ts_database_new_nd2,
      db2_n_samples]
    rw [if_neg (by simp [nd2])]
    rw [if_neg (by omega)]
    rw [show toSizeT (.int n) = .ok n.toNat by
      simp only [toSizeT]; rw [if_neg (by omega)]]
    simp only [Int.toNat_zero]
    cases hker : m.ts_copy_sub_matches
        ((m.init_ts_copy_from_ndarray sh.data 0).2)
        (db2 ns t xd) n.toNat thr with
    | error e => simp [hker]
    | ok pairs => simp [hker]

/-- Witness for C8 amended: at the concrete callable measure and the
2-by-2 data, applying the amended theorem shows the `matches` trace head
is the native match dispatch even though the pattern is longer than the
series. -/
theorem c8_amended_alignment_witness :
    («matches» mEx shLong (nd2 2 2 [1, 2, 3, 4]) 10 0 (some (.int 0)) false).2.head?
      = some (.subMatches 0) := by
  have h := c8_amended_alignment mEx shLong 2 2 [1, 2, 3, 4] 10 rfl (by decide)
  exact h.2.2.2 0 (by omega) (by omega) false

end Wildboar
